import Mathlib

/-!
# Verification of `voice.py`

A shallow embedding of the voice-recognition glue script `src/voice.py`.

Modelling conventions:
* Audio samples (numpy `float32`) are modelled as exact rationals `ℚ`;
  the amplitude threshold `0.01` becomes `1/100`.
* The external Google recognizer is modelled by an oracle
  `String → RecogOutcome` giving, for each language submitted, the outcome
  of that submission (`recognize_google` either returns text or raises).
* Python exceptions are values of `PyErr`; code that may raise returns a
  `PyResult`.  Every `PyErr` models a Python `Exception` subclass
  (`sr.UnknownValueError`, `sr.RequestError`, `OSError`, `wave.Error`, ...),
  so a handler for `Exception` catches all of them.
* Side effects (printed lines, WAV files written, service requests,
  temp-file unlinks, spawned threads) are returned explicitly.
-/

/-- A Python exception value.  All constructors model subclasses of
`Exception`, which is what the handlers in `voice.py` catch. -/
inductive PyErr where
  | unknownValue
  | requestError (msg : String)
  | other (msg : String)
deriving DecidableEq, Repr

/-- Result of running a piece of Python code: a normal value, or an
exception propagating to the caller. -/
inductive PyResult (α : Type) where
  | ok (a : α)
  | exc (e : PyErr)
deriving DecidableEq, Repr

/-- Outcome of one call to `recognizer.recognize_google(audio, language=l)`,
as observed at the API boundary. -/
inductive RecogOutcome where
  | success (text : String)
  | unknownValue
  | requestError (msg : String)
  | otherError (msg : String)
deriving DecidableEq, Repr

/-- Whether the service call returned text. -/
def RecogOutcome.isSuccess : RecogOutcome → Bool
  | .success _ => true
  | _ => false

/-- `recognizer.recognize_google(audio_data, language=lang)`: one submission
of the clip to the remote service, returning text or raising. -/
def recognize_google (oracle : String → RecogOutcome) (lang : String) :
    PyResult String :=
  match oracle lang with
  | .success t => .ok t
  | .unknownValue => .exc .unknownValue
  | .requestError m => .exc (.requestError m)
  | .otherError m => .exc (.other m)

/-- What one call to `VoiceRecognizer.recognize_audio` does: its returned
value (or propagated exception), the lines it prints itself, and the
submissions it makes to the remote service, each pairing the language with
the one audio clip that was submitted. -/
structure RecogResult (α : Type) where
  result : PyResult (Option String)
  printed : List String
  requests : List (String × α)
deriving DecidableEq, Repr

/-- `VoiceRecognizer.recognize_audio`, translated clause by clause.
In `"auto"` mode a bare `except:` swallows any error of the zh-CN attempt
before trying en-US; in fixed-language mode the three outer handlers
(`sr.UnknownValueError`, `sr.RequestError`, `Exception`) turn every
exception into `None`, printing a diagnostic for the latter two. -/
def VoiceRecognizer.recognize_audio {α : Type} (language : String)
    (oracle : String → RecogOutcome) (audio_data : α) : RecogResult α :=
  if language = "auto" then
    match recognize_google oracle "zh-CN" with
    | .ok text_cn =>
        ⟨.ok (some ("[中文] " ++ text_cn)), [], [("zh-CN", audio_data)]⟩
    | .exc _ =>
        match recognize_google oracle "en-US" with
        | .ok text_en =>
            ⟨.ok (some ("[英文] " ++ text_en)), [],
              [("zh-CN", audio_data), ("en-US", audio_data)]⟩
        | .exc _ =>
            ⟨.ok none, [], [("zh-CN", audio_data), ("en-US", audio_data)]⟩
  else
    match recognize_google oracle language with
    | .ok text =>
        ⟨.ok (some ("[" ++ (if language = "zh-CN" then "中文" else "英文")
            ++ "] " ++ text)), [], [(language, audio_data)]⟩
    | .exc .unknownValue => ⟨.ok none, [], [(language, audio_data)]⟩
    | .exc (.requestError e) =>
        ⟨.ok none, ["❌ 识别服务错误: " ++ e], [(language, audio_data)]⟩
    | .exc (.other e) =>
        ⟨.ok none, ["❌ 识别错误: " ++ e], [(language, audio_data)]⟩

/-- A wall-clock time of day, the input of `time.strftime`. -/
structure Timestamp where
  hour : Nat
  minute : Nat
  second : Nat
deriving DecidableEq, Repr

/-- `time.strftime("%H:%M:%S")`: every field zero-padded to two digits. -/
def fmtHMS (ts : Timestamp) : String :=
  String.mk [Nat.digitChar (ts.hour / 10 % 10), Nat.digitChar (ts.hour % 10),
    ':', Nat.digitChar (ts.minute / 10 % 10), Nat.digitChar (ts.minute % 10),
    ':', Nat.digitChar (ts.second / 10 % 10), Nat.digitChar (ts.second % 10)]

/-- Observable behaviour of `MicrophoneRecorder._process_audio` (and of the
identical `MixedAudioRecorder._process_mic_audio`). -/
structure MicProcResult where
  printed : List String
  raised : Option PyErr
deriving DecidableEq, Repr

/-- `MicrophoneRecorder._process_audio`: recognize, and print one
timestamped transcript line when text was returned. -/
def MicrophoneRecorder._process_audio {α : Type} (language : String)
    (oracle : String → RecogOutcome) (ts : Timestamp) (audio : α) :
    MicProcResult :=
  match VoiceRecognizer.recognize_audio language oracle audio with
  | ⟨.ok (some t), pr, _⟩ => ⟨pr ++ ["[" ++ fmtHMS ts ++ "] 🎤 " ++ t], none⟩
  | ⟨.ok none, pr, _⟩ => ⟨pr, none⟩
  | ⟨.exc e, pr, _⟩ => ⟨pr, some e⟩

/-- A WAV file as produced by the `wave` module: header parameters plus the
16-bit integer frames written by `writeframes`. -/
structure WavFile where
  nchannels : Nat
  sampwidth : Nat
  framerate : Nat
  frames : List ℤ
deriving DecidableEq, Repr

/-- numpy's `(audio_data * 32767).astype(np.int16)`, per sample: the product
is truncated toward zero (C float-to-int conversion).  Out-of-range values
(|x·32767| ≥ 2¹⁵) are undefined behaviour in numpy and are not modelled. -/
def astypeInt16 (x : ℚ) : ℤ :=
  if 0 ≤ x * 32767 then ⌊x * 32767⌋ else ⌈x * 32767⌉

/-- `np.max(np.abs(clip))` for a nonempty clip (all absolute values are
nonnegative, so folding from `0` computes the maximum). -/
def maxAbs (clip : List ℚ) : ℚ :=
  clip.foldl (fun m x => max m |x|) 0

/-- The fields of `sr.Recognizer` that `voice.py` sets. -/
structure RecognizerState where
  energy_threshold : ℚ
  dynamic_energy_threshold : Bool
  pause_threshold : ℚ
deriving DecidableEq, Repr

/-- One run of ambient calibration. -/
structure CalibrationEvent where
  duration : ℚ
deriving DecidableEq, Repr

/-- Modelled at the external-library boundary:
`recognizer.adjust_for_ambient_noise(source, duration)` listens for
`duration` seconds and stores the measured ambient energy level as the new
`energy_threshold`. -/
def adjust_for_ambient_noise (ambientEnergy : ℚ) (st : RecognizerState)
    (duration : ℚ) : RecognizerState × CalibrationEvent :=
  ({ st with energy_threshold := ambientEnergy }, ⟨duration⟩)

/-- `VoiceRecognizer._calibrate_microphone`: one ambient calibration with
`duration=1`. -/
def VoiceRecognizer._calibrate_microphone (ambientEnergy : ℚ)
    (st : RecognizerState) : RecognizerState × List CalibrationEvent :=
  let r := adjust_for_ambient_noise ambientEnergy st 1
  (r.1, [r.2])

/-- `VoiceRecognizer.__init__`: set the recognizer tuning fields
(`energy_threshold = 300`, `dynamic_energy_threshold = True`,
`pause_threshold = 0.5`), then calibrate. -/
def VoiceRecognizer.init (ambientEnergy : ℚ) :
    RecognizerState × List CalibrationEvent :=
  VoiceRecognizer._calibrate_microphone ambientEnergy
    { energy_threshold := 300, dynamic_energy_threshold := true,
      pause_threshold := 1/2 }

/-- Everything outside the clip that system-audio processing interacts with:
the recognizer language and state, the remote-service oracle, the wall
clock, and which fallible library calls raise (`none` = the call succeeds). -/
structure SysEnv where
  language : String
  oracle : String → RecogOutcome
  state : RecognizerState
  ts : Timestamp
  tempFileErr : Option PyErr
  wavWriteErr : Option PyErr
  audioReadErr : Option PyErr
  unlinkErr : Option PyErr

/-- Observable behaviour of one system-audio clip processing call: WAV files
written, remote-service submissions (language × WAV content), lines printed,
temp files removed, and the exception propagated to the caller, if any. -/
structure SysProcResult where
  wavsWritten : List WavFile
  requests : List (String × WavFile)
  printed : List String
  unlinked : Nat
  raised : Option PyErr
deriving DecidableEq, Repr

def SystemAudioRecorder.sample_rate : Nat := 16000

def SystemAudioRecorder.chunk_size : Nat := 1024

/-- The `try:` body of `SystemAudioRecorder._process_system_audio`, before
the `except Exception: pass` handler; `raised` reports the exception that
escapes the body.  A failing step keeps the effects already performed. -/
def SystemAudioRecorder._process_system_audio_body (env : SysEnv)
    (audio_data : List ℚ) : SysProcResult :=
  if audio_data = [] then
    ⟨[], [], [], 0, some (.other "zero-size array to reduction operation maximum")⟩
  else if maxAbs audio_data < 1/100 then
    ⟨[], [], [], 0, none⟩
  else
    match env.tempFileErr with
    | some e => ⟨[], [], [], 0, some e⟩
    | none =>
      match env.wavWriteErr with
      | some e => ⟨[], [], [], 0, some e⟩
      | none =>
        let wav : WavFile :=
          ⟨1, 2, SystemAudioRecorder.sample_rate, audio_data.map astypeInt16⟩
        match env.audioReadErr with
        | some e => ⟨[wav], [], [], 0, some e⟩
        | none =>
          let r := VoiceRecognizer.recognize_audio env.language env.oracle wav
          match r.result with
          | .exc e => ⟨[wav], r.requests, r.printed, 0, some e⟩
          | .ok text =>
            let lines := r.printed ++
              (match text with
               | some t => ["[" ++ fmtHMS env.ts ++ "] 🔊 " ++ t]
               | none => [])
            match env.unlinkErr with
            | some e => ⟨[wav], r.requests, lines, 0, some e⟩
            | none => ⟨[wav], r.requests, lines, 1, none⟩

/-- `SystemAudioRecorder._process_system_audio`: the body wrapped in
`except Exception: pass` — every escaping exception is absorbed silently. -/
def SystemAudioRecorder._process_system_audio (env : SysEnv)
    (audio_data : List ℚ) : SysProcResult :=
  let r := SystemAudioRecorder._process_system_audio_body env audio_data
  match r.raised with
  | some _ => { r with raised := none }
  | none => r

/-- The `try:` body of `MixedAudioRecorder._process_sys_audio` — the same
steps as the system recorder, with the sample rate written literally. -/
def MixedAudioRecorder._process_sys_audio_body (env : SysEnv)
    (audio_data : List ℚ) : SysProcResult :=
  if audio_data = [] then
    ⟨[], [], [], 0, some (.other "zero-size array to reduction operation maximum")⟩
  else if maxAbs audio_data < 1/100 then
    ⟨[], [], [], 0, none⟩
  else
    match env.tempFileErr with
    | some e => ⟨[], [], [], 0, some e⟩
    | none =>
      match env.wavWriteErr with
      | some e => ⟨[], [], [], 0, some e⟩
      | none =>
        let wav : WavFile := ⟨1, 2, 16000, audio_data.map astypeInt16⟩
        match env.audioReadErr with
        | some e => ⟨[wav], [], [], 0, some e⟩
        | none =>
          let r := VoiceRecognizer.recognize_audio env.language env.oracle wav
          match r.result with
          | .exc e => ⟨[wav], r.requests, r.printed, 0, some e⟩
          | .ok text =>
            let lines := r.printed ++
              (match text with
               | some t => ["[" ++ fmtHMS env.ts ++ "] 🔊 " ++ t]
               | none => [])
            match env.unlinkErr with
            | some e => ⟨[wav], r.requests, lines, 0, some e⟩
            | none => ⟨[wav], r.requests, lines, 1, none⟩

/-- `MixedAudioRecorder._process_sys_audio`: the body wrapped in
`except Exception: pass`. -/
def MixedAudioRecorder._process_sys_audio (env : SysEnv)
    (audio_data : List ℚ) : SysProcResult :=
  let r := MixedAudioRecorder._process_sys_audio_body env audio_data
  match r.raised with
  | some _ => { r with raised := none }
  | none => r

def SystemAudioRecorder.buffer_duration : Nat := 3

/-- `buffer_size = int(self.sample_rate * buffer_duration)` in
`SystemAudioRecorder.start_recording`. -/
def SystemAudioRecorder.buffer_size : Nat :=
  SystemAudioRecorder.sample_rate * SystemAudioRecorder.buffer_duration

/-- `buffer_size = int(16000 * 3)` in
`MixedAudioRecorder._start_system_audio`. -/
def MixedAudioRecorder.buffer_size : Nat := 16000 * 3

/-- One iteration of a capture loop with buffer threshold `bsz`: extend the
buffer with the mono chunk just recorded; if the buffer has reached `bsz`
samples, dispatch the whole accumulated clip for processing and reset the
buffer to empty. -/
def captureStep (bsz : Nat) (buffer chunk : List ℚ) :
    List ℚ × Option (List ℚ) :=
  if bsz ≤ (buffer ++ chunk).length then ([], some (buffer ++ chunk))
  else (buffer ++ chunk, none)

/-- Run a capture loop over a sequence of recorded chunks, returning the
final buffer and the dispatched clips in order. -/
def captureRun (bsz : Nat) (buffer : List ℚ) :
    List (List ℚ) → List ℚ × List (List ℚ)
  | [] => (buffer, [])
  | c :: cs =>
    match captureStep bsz buffer c with
    | (b1, none) => captureRun bsz b1 cs
    | (b1, some clip) =>
      let r := captureRun bsz b1 cs
      (r.1, clip :: r.2)

/-- The capture threads spawned by `MixedAudioRecorder.start_recording`. -/
inductive ThreadKind where
  | micThread
  | sysThread
deriving DecidableEq, BEq, Repr

/-- The recording flags of a `MixedAudioRecorder` and its two
sub-recorders. -/
structure MixedState where
  is_recording : Bool
  mic_is_recording : Bool
  sys_is_recording : Bool
deriving DecidableEq, Repr

/-- `MixedAudioRecorder.start_recording` up to its wait loop: set the flag
and spawn one microphone-capture thread and one system-audio-capture
thread. -/
def MixedAudioRecorder.start_recording_spawn (st : MixedState) :
    MixedState × List ThreadKind :=
  ({ st with is_recording := true }, [.micThread, .sysThread])

/-- The `finally:` block of `MixedAudioRecorder.start_recording`: clear the
mixed flag and both sub-recorder flags. -/
def MixedAudioRecorder.stop_recording (_st : MixedState) : MixedState :=
  { is_recording := false, mic_is_recording := false,
    sys_is_recording := false }

/-- A dispatched clip is the whole extended buffer, has at least `bsz`
samples, and leaves the buffer empty. -/
theorem captureStep_dispatch (bsz : Nat) (buffer chunk : List ℚ)
    (clip : List ℚ) (h : (captureStep bsz buffer chunk).2 = some clip) :
    clip = buffer ++ chunk ∧ bsz ≤ clip.length ∧
      (captureStep bsz buffer chunk).1 = [] := by
  unfold captureStep at *
  split at h
  case isTrue hle =>
    simp only [Option.some.injEq] at h
    subst h
    rw [List.length_append] at hle
    simp [hle]
  case isFalse hle =>
    simp at h

/-- Every clip dispatched during a capture run has at least `bsz` samples. -/
theorem captureRun_dispatch_length (bsz : Nat) (chunks : List (List ℚ)) :
    ∀ buffer clip : List ℚ,
      clip ∈ (captureRun bsz buffer chunks).2 → bsz ≤ clip.length := by
  induction chunks with
  | nil => intro buffer clip h; simp [captureRun] at h
  | cons c cs ih =>
    intro buffer clip h
    rw [captureRun] at h
    rcases hs : captureStep bsz buffer c with ⟨b1, d⟩
    rw [hs] at h
    cases d with
    | none => exact ih b1 clip h
    | some cl =>
      simp only [List.mem_cons] at h
      rcases h with h | h
      · subst h
        exact (captureStep_dispatch bsz buffer c clip (by rw [hs])).2.1
      · exact ih b1 clip h

/-- C1: In system-audio mode, captured samples accumulate in a fixed
3-second buffer: `buffer_size = sample_rate * 3 = 48000` samples at
16000 Hz (and likewise `16000 * 3` in the mixed recorder); on every
iteration of the capture loop, whenever the extended buffer reaches or
exceeds `buffer_size` the whole accumulated clip is dispatched for
processing and the buffer is reset to empty, otherwise the buffer just
grows and nothing is dispatched; and every clip dispatched during a run has
at least `buffer_size` samples — a clip is never dispatched before the
buffer is full. -/
theorem C1_fixed_buffer_dispatch :
    (SystemAudioRecorder.buffer_size =
        SystemAudioRecorder.sample_rate * SystemAudioRecorder.buffer_duration ∧
      SystemAudioRecorder.sample_rate = 16000 ∧
      SystemAudioRecorder.buffer_size = 48000 ∧
      MixedAudioRecorder.buffer_size = 48000) ∧
    (∀ buffer chunk : List ℚ,
      (SystemAudioRecorder.buffer_size ≤ (buffer ++ chunk).length →
        captureStep SystemAudioRecorder.buffer_size buffer chunk =
          ([], some (buffer ++ chunk))) ∧
      ((buffer ++ chunk).length < SystemAudioRecorder.buffer_size →
        captureStep SystemAudioRecorder.buffer_size buffer chunk =
          (buffer ++ chunk, none))) ∧
    (∀ (buffer clip : List ℚ) (chunks : List (List ℚ)),
      (clip ∈ (captureRun SystemAudioRecorder.buffer_size buffer chunks).2 →
        SystemAudioRecorder.buffer_size ≤ clip.length) ∧
      (clip ∈ (captureRun MixedAudioRecorder.buffer_size buffer chunks).2 →
        MixedAudioRecorder.buffer_size ≤ clip.length)) := by
  refine ⟨⟨rfl, rfl, rfl, rfl⟩, ?_, ?_⟩
  · intro buffer chunk
    constructor
    · intro h
      unfold captureStep
      rw [if_pos h]
    · intro h
      unfold captureStep
      rw [if_neg (not_le.mpr h)]
  · intro buffer clip chunks
    exact ⟨captureRun_dispatch_length _ chunks buffer clip,
      captureRun_dispatch_length _ chunks buffer clip⟩

/-- A run over a single chunk that triggers a dispatch dispatches exactly
that clip. -/
theorem captureRun_singleton (bsz : Nat) (buffer c b1 clip : List ℚ)
    (h : captureStep bsz buffer c = (b1, some clip)) :
    (captureRun bsz buffer [c]).2 = [clip] := by
  rw [captureRun, h]
  simp [captureRun]

/-- Witness for C1 at a concrete input: a 48000-sample chunk fills the
empty buffer exactly, the whole clip is dispatched, the buffer resets, and
the dispatched clip of the corresponding run indeed has 48000 samples. -/
theorem C1_fixed_buffer_dispatch_witness :
    SystemAudioRecorder.buffer_size ≤
      (([] : List ℚ) ++ List.replicate 48000 (0 : ℚ)).length ∧
    captureStep SystemAudioRecorder.buffer_size []
        (List.replicate 48000 (0 : ℚ)) =
      ([], some (([] : List ℚ) ++ List.replicate 48000 (0 : ℚ))) ∧
    List.replicate 48000 (0 : ℚ) ∈
      (captureRun SystemAudioRecorder.buffer_size []
        [List.replicate 48000 (0 : ℚ)]).2 ∧
    SystemAudioRecorder.buffer_size ≤ (List.replicate 48000 (0 : ℚ)).length := by
  have h : SystemAudioRecorder.buffer_size ≤
      (([] : List ℚ) ++ List.replicate 48000 (0 : ℚ)).length := by
    rw [List.nil_append, List.length_replicate]
    decide
  have hstep := (C1_fixed_buffer_dispatch.2.1 [] (List.replicate 48000 (0 : ℚ))).1 h
  have hmem : List.replicate 48000 (0 : ℚ) ∈
      (captureRun SystemAudioRecorder.buffer_size []
        [List.replicate 48000 (0 : ℚ)]).2 := by
    rw [captureRun_singleton _ _ _ _ _ hstep, List.nil_append]
    exact List.mem_singleton.mpr rfl
  exact ⟨h, hstep, hmem,
    (C1_fixed_buffer_dispatch.2.2 [] (List.replicate 48000 (0 : ℚ))
      [List.replicate 48000 (0 : ℚ)]).1 hmem⟩

/-- An oracle for which every service submission succeeds. -/
def sampleOracle : String → RecogOutcome := fun _ => .success "hello"

/-- An oracle for which every service submission fails with a
`RequestError`. -/
def failingOracle : String → RecogOutcome :=
  fun _ => .requestError "connection failed"

/-- A concrete clean environment: fixed language zh-CN, all library calls
succeed. -/
def env0 : SysEnv :=
  ⟨"zh-CN", sampleOracle, ⟨300, true, 1/2⟩, ⟨12, 34, 56⟩, none, none, none,
    none⟩

/-- C2: for every environment and nonempty clip, if the maximum absolute
amplitude is below the fixed threshold 0.01 the clip is discarded outright
by both `_process_system_audio` and `_process_sys_audio` — no WAV file
written, no recognition request, nothing printed, no temp file removed, no
exception — and a recognition request is only ever made for a clip whose
maximum absolute amplitude is at or above the threshold. -/
theorem C2_silence_threshold_discard (env : SysEnv) (clip : List ℚ)
    (hne : clip ≠ []) :
    (maxAbs clip < 1/100 →
      SystemAudioRecorder._process_system_audio env clip =
        ⟨[], [], [], 0, none⟩ ∧
      MixedAudioRecorder._process_sys_audio env clip =
        ⟨[], [], [], 0, none⟩) ∧
    ((SystemAudioRecorder._process_system_audio env clip).requests ≠ [] →
      1/100 ≤ maxAbs clip) ∧
    ((MixedAudioRecorder._process_sys_audio env clip).requests ≠ [] →
      1/100 ≤ maxAbs clip) := by
  have hsil : maxAbs clip < 1/100 →
      SystemAudioRecorder._process_system_audio env clip =
        ⟨[], [], [], 0, none⟩ ∧
      MixedAudioRecorder._process_sys_audio env clip =
        ⟨[], [], [], 0, none⟩ := by
    intro h
    have hb1 : SystemAudioRecorder._process_system_audio_body env clip =
        ⟨[], [], [], 0, none⟩ := by
      unfold SystemAudioRecorder._process_system_audio_body
      rw [if_neg hne, if_pos h]
    have hb2 : MixedAudioRecorder._process_sys_audio_body env clip =
        ⟨[], [], [], 0, none⟩ := by
      unfold MixedAudioRecorder._process_sys_audio_body
      rw [if_neg hne, if_pos h]
    constructor
    · unfold SystemAudioRecorder._process_system_audio
      rw [hb1]
    · unfold MixedAudioRecorder._process_sys_audio
      rw [hb2]
  refine ⟨hsil, ?_, ?_⟩
  · intro hreq
    by_cases h : maxAbs clip < 1/100
    · exact absurd (by rw [(hsil h).1]) hreq
    · exact not_lt.mp h
  · intro hreq
    by_cases h : maxAbs clip < 1/100
    · exact absurd (by rw [(hsil h).2]) hreq
    · exact not_lt.mp h

/-- Witness for C2: the quiet one-sample clip `[1/200]` is discarded by the
system recorder in the concrete environment `env0`. -/
theorem C2_silence_threshold_discard_witness :
    ([(1 : ℚ)/200] ≠ ([] : List ℚ)) ∧ maxAbs [(1 : ℚ)/200] < 1/100 ∧
    SystemAudioRecorder._process_system_audio env0 [(1 : ℚ)/200] =
      ⟨[], [], [], 0, none⟩ := by
  have hne : ([(1 : ℚ)/200] ≠ ([] : List ℚ)) := by simp
  have hlt : maxAbs [(1 : ℚ)/200] < 1/100 := by
    show max 0 |(1 : ℚ)/200| < 1/100
    rw [abs_of_nonneg (by norm_num)]
    norm_num
  exact ⟨hne, hlt,
    ((C2_silence_threshold_discard env0 [(1 : ℚ)/200] hne).1 hlt).1⟩

/-- The `except Exception: pass` wrapper only clears the escaping
exception; all other effects are those of the body. -/
theorem sysProc_spec (env : SysEnv) (clip : List ℚ) :
    SystemAudioRecorder._process_system_audio env clip =
      { SystemAudioRecorder._process_system_audio_body env clip with
        raised := none } := by
  unfold SystemAudioRecorder._process_system_audio
  rcases hb : SystemAudioRecorder._process_system_audio_body env clip with
    ⟨w, q, p, u, raised⟩
  cases raised <;> rfl

/-- The mixed recorder's `except Exception: pass` wrapper, likewise. -/
theorem mixedProc_spec (env : SysEnv) (clip : List ℚ) :
    MixedAudioRecorder._process_sys_audio env clip =
      { MixedAudioRecorder._process_sys_audio_body env clip with
        raised := none } := by
  unfold MixedAudioRecorder._process_sys_audio
  rcases hb : MixedAudioRecorder._process_sys_audio_body env clip with
    ⟨w, q, p, u, raised⟩
  cases raised <;> rfl

/-- When recognition succeeds, `recognize_audio` prints nothing itself. -/
theorem recognize_audio_success_printed {α : Type} (language : String)
    (oracle : String → RecogOutcome) (a : α) (t : String)
    (h : (VoiceRecognizer.recognize_audio language oracle a).result =
      .ok (some t)) :
    (VoiceRecognizer.recognize_audio language oracle a).printed = [] := by
  by_cases hl : language = "auto"
  · rcases hzh : oracle "zh-CN" with t1 | _ | m | m <;>
      rcases hen : oracle "en-US" with t2 | _ | m2 | m2 <;>
      simp_all [VoiceRecognizer.recognize_audio, recognize_google]
  · rcases ho : oracle language with t1 | _ | m | m <;>
      simp_all [VoiceRecognizer.recognize_audio, recognize_google]

/-- `_process_audio` prints the recognizer's own diagnostics followed by
one timestamped transcript line exactly when text was returned. -/
theorem mic_process_printed {α : Type} (language : String)
    (oracle : String → RecogOutcome) (ts : Timestamp) (audio : α) :
    (MicrophoneRecorder._process_audio language oracle ts audio).printed =
      (VoiceRecognizer.recognize_audio language oracle audio).printed ++
        (match (VoiceRecognizer.recognize_audio language oracle audio).result
          with
         | .ok (some t) => ["[" ++ fmtHMS ts ++ "] 🎤 " ++ t]
         | _ => []) := by
  unfold MicrophoneRecorder._process_audio
  rcases hr : VoiceRecognizer.recognize_audio language oracle audio with
    ⟨res, pr, reqs⟩
  rcases res with r0 | e
  · rcases r0 with _ | t <;> simp
  · simp

/-- On a nonempty, non-silent clip with working temp-file, WAV and read
steps, system-audio processing prints the recognizer's own diagnostics
followed by one timestamped transcript line exactly when text was
returned. -/
theorem sys_body_printed_clean (env : SysEnv) (clip : List ℚ)
    (hne : clip ≠ []) (hl : ¬ maxAbs clip < 1/100)
    (h1 : env.tempFileErr = none) (h2 : env.wavWriteErr = none)
    (h3 : env.audioReadErr = none) :
    (SystemAudioRecorder._process_system_audio_body env clip).printed =
      (VoiceRecognizer.recognize_audio env.language env.oracle
        (⟨1, 2, SystemAudioRecorder.sample_rate, clip.map astypeInt16⟩ :
          WavFile)).printed ++
      (match (VoiceRecognizer.recognize_audio env.language env.oracle
        (⟨1, 2, SystemAudioRecorder.sample_rate, clip.map astypeInt16⟩ :
          WavFile)).result with
       | .ok (some t) => ["[" ++ fmtHMS env.ts ++ "] 🔊 " ++ t]
       | _ => []) := by
  unfold SystemAudioRecorder._process_system_audio_body
  rw [if_neg hne, if_neg hl, h1, h2, h3]
  rcases hr : VoiceRecognizer.recognize_audio env.language env.oracle
      (⟨1, 2, SystemAudioRecorder.sample_rate, clip.map astypeInt16⟩ :
        WavFile) with ⟨res, pr, reqs⟩
  rcases res with r0 | e
  · rcases r0 with _ | t <;> cases h4 : env.unlinkErr <;> simp [hr, h4]
  · simp [hr]

/-- C3 as stated is false at a concrete input: when the remote service
fails with a `RequestError`, recognition returns `None`, yet a line (the
error diagnostic from `recognize_audio`) is printed while handling the
clip — contradicting "when recognition returns None nothing is printed for
that clip". -/
theorem C3_counterexample :
    (VoiceRecognizer.recognize_audio "zh-CN" failingOracle ()).result =
      .ok none ∧
    (MicrophoneRecorder._process_audio "zh-CN" failingOracle
      ⟨12, 34, 56⟩ ()).printed = ["❌ 识别服务错误: connection failed"] :=
  ⟨rfl, rfl⟩

/-- C3 amended: when recognition succeeds with text `t`, exactly one line —
the 8-character `HH:MM:SS` timestamp followed by the transcript — is
printed for the clip (by `_process_audio`, and by
`_process_system_audio` on a clean run); when recognition returns `None`,
no transcript line is printed, though `recognize_audio` itself may print an
error diagnostic (on `RequestError` or an unexpected exception in
fixed-language mode). -/
theorem C3_amended_transcript_printing {α : Type} (language : String)
    (oracle : String → RecogOutcome) (ts : Timestamp) (audio : α)
    (env : SysEnv) (clip : List ℚ) :
    (∀ t, (VoiceRecognizer.recognize_audio language oracle audio).result =
        .ok (some t) →
      (MicrophoneRecorder._process_audio language oracle ts audio).printed =
        ["[" ++ fmtHMS ts ++ "] 🎤 " ++ t]) ∧
    ((VoiceRecognizer.recognize_audio language oracle audio).result =
        .ok none →
      (MicrophoneRecorder._process_audio language oracle ts audio).printed =
        (VoiceRecognizer.recognize_audio language oracle audio).printed) ∧
    (∀ t, clip ≠ [] → ¬ maxAbs clip < 1/100 → env.tempFileErr = none →
      env.wavWriteErr = none → env.audioReadErr = none →
      (VoiceRecognizer.recognize_audio env.language env.oracle
        (⟨1, 2, SystemAudioRecorder.sample_rate, clip.map astypeInt16⟩ :
          WavFile)).result = .ok (some t) →
      (SystemAudioRecorder._process_system_audio env clip).printed =
        ["[" ++ fmtHMS env.ts ++ "] 🔊 " ++ t]) ∧
    (clip ≠ [] → ¬ maxAbs clip < 1/100 → env.tempFileErr = none →
      env.wavWriteErr = none → env.audioReadErr = none →
      (VoiceRecognizer.recognize_audio env.language env.oracle
        (⟨1, 2, SystemAudioRecorder.sample_rate, clip.map astypeInt16⟩ :
          WavFile)).result = .ok none →
      (SystemAudioRecorder._process_system_audio env clip).printed =
        (VoiceRecognizer.recognize_audio env.language env.oracle
          (⟨1, 2, SystemAudioRecorder.sample_rate, clip.map astypeInt16⟩ :
            WavFile)).printed) ∧
    ((fmtHMS ts).length = 8 ∧ (fmtHMS ts).data.get? 2 = some ':' ∧
      (fmtHMS ts).data.get? 5 = some ':') := by
  refine ⟨?_, ?_, ?_, ?_, rfl, rfl, rfl⟩
  · intro t h
    rw [mic_process_printed, recognize_audio_success_printed _ _ _ t h, h]
    simp
  · intro h
    rw [mic_process_printed, h]
    simp
  · intro t hne hl h1 h2 h3 h
    rw [sysProc_spec]
    show (SystemAudioRecorder._process_system_audio_body env clip).printed = _
    rw [sys_body_printed_clean env clip hne hl h1 h2 h3,
      recognize_audio_success_printed _ _ _ t h, h]
    simp
  · intro hne hl h1 h2 h3 h
    rw [sysProc_spec]
    show (SystemAudioRecorder._process_system_audio_body env clip).printed = _
    rw [sys_body_printed_clean env clip hne hl h1 h2 h3, h]
    simp

/-- Witness for the amended C3: with the all-success oracle in `env0` and
the loud one-sample clip `[1/50]`, both processing paths print exactly the
one timestamped transcript line. -/
theorem C3_amended_transcript_printing_witness :
    (VoiceRecognizer.recognize_audio "zh-CN" sampleOracle ()).result =
      .ok (some "[中文] hello") ∧
    (MicrophoneRecorder._process_audio "zh-CN" sampleOracle
      ⟨12, 34, 56⟩ ()).printed = ["[12:34:56] 🎤 [中文] hello"] ∧
    (SystemAudioRecorder._process_system_audio env0 [(1 : ℚ)/50]).printed =
      ["[12:34:56] 🔊 [中文] hello"] := by
  have hl : ¬ maxAbs [(1 : ℚ)/50] < 1/100 := by
    show ¬ max 0 |(1 : ℚ)/50| < 1/100
    rw [abs_of_nonneg (by norm_num)]
    norm_num
  have hmic := (C3_amended_transcript_printing "zh-CN" sampleOracle
    ⟨12, 34, 56⟩ () env0 [(1 : ℚ)/50]).1 "[中文] hello" rfl
  have hsys := ((C3_amended_transcript_printing "zh-CN" sampleOracle
    ⟨12, 34, 56⟩ () env0 [(1 : ℚ)/50]).2.2.1) "[中文] hello"
    (by simp) hl rfl rfl rfl rfl
  refine ⟨rfl, ?_, ?_⟩
  · rw [hmic]
    rfl
  · rw [hsys]
    rfl

/-- C4: system-audio clip processing never propagates an exception to its
caller: for every environment (any combination of failing WAV write,
recognition, or temp-file cleanup) and every clip, both
`_process_system_audio` and `_process_sys_audio` finish with no escaping
exception — errors are silently absorbed by `except Exception: pass`. -/
theorem C4_exceptions_swallowed (env : SysEnv) (clip : List ℚ) :
    (SystemAudioRecorder._process_system_audio env clip).raised = none ∧
    (MixedAudioRecorder._process_sys_audio env clip).raised = none := by
  rw [sysProc_spec, mixedProc_spec]
  exact ⟨rfl, rfl⟩

/-- The same clean environment as `env0` except that the recognizer was
calibrated to a very different `energy_threshold`. -/
def envHighThreshold : SysEnv :=
  ⟨"zh-CN", sampleOracle, ⟨999999, true, 1/2⟩, ⟨12, 34, 56⟩, none, none,
    none, none⟩

/-- C5 as stated is false at a concrete input: the "later silence checks"
of system-audio processing compare against the fixed constant 0.01, not
against the calibrated threshold.  The two recognizer states below have
different thresholds (300 vs 999999), yet processing of the quiet clip
`[1/200]` (and of the loud clip `[1/50]`) is identical under both. -/
theorem C5_counterexample :
    env0.state.energy_threshold ≠ envHighThreshold.state.energy_threshold ∧
    SystemAudioRecorder._process_system_audio env0 [(1 : ℚ)/200] =
      SystemAudioRecorder._process_system_audio envHighThreshold
        [(1 : ℚ)/200] ∧
    SystemAudioRecorder._process_system_audio env0 [(1 : ℚ)/50] =
      SystemAudioRecorder._process_system_audio envHighThreshold
        [(1 : ℚ)/50] := by
  refine ⟨?_, rfl, rfl⟩
  show (300 : ℚ) ≠ 999999
  norm_num

/-- C5 amended: ambient calibration is performed exactly once, at
`VoiceRecognizer` initialization, with duration 1 second, and stores the
measured ambient energy as `recognizer.energy_threshold`; the system-audio
silence checks compare the clip amplitude against the fixed constant 0.01
and are wholly independent of the recognizer state, so the calibrated
threshold plays no part in them. -/
theorem C5_amended_one_time_calibration (ambientEnergy : ℚ) (env : SysEnv)
    (st2 : RecognizerState) (clip : List ℚ) :
    (VoiceRecognizer.init ambientEnergy).2 =
      [({ duration := 1 } : CalibrationEvent)] ∧
    (VoiceRecognizer.init ambientEnergy).1.energy_threshold = ambientEnergy ∧
    SystemAudioRecorder._process_system_audio { env with state := st2 }
        clip =
      SystemAudioRecorder._process_system_audio env clip ∧
    MixedAudioRecorder._process_sys_audio { env with state := st2 } clip =
      MixedAudioRecorder._process_sys_audio env clip :=
  ⟨rfl, rfl, rfl, rfl⟩

/-- On a clean run, the service submissions of system-audio processing are
exactly those of the one `recognize_audio` call on the WAV content. -/
theorem sys_body_requests_clean (env : SysEnv) (clip : List ℚ)
    (hne : clip ≠ []) (hl : ¬ maxAbs clip < 1/100)
    (h1 : env.tempFileErr = none) (h2 : env.wavWriteErr = none)
    (h3 : env.audioReadErr = none) :
    (SystemAudioRecorder._process_system_audio_body env clip).requests =
      (VoiceRecognizer.recognize_audio env.language env.oracle
        (⟨1, 2, SystemAudioRecorder.sample_rate, clip.map astypeInt16⟩ :
          WavFile)).requests := by
  unfold SystemAudioRecorder._process_system_audio_body
  rw [if_neg hne, if_neg hl, h1, h2, h3]
  rcases hr : VoiceRecognizer.recognize_audio env.language env.oracle
      (⟨1, 2, SystemAudioRecorder.sample_rate, clip.map astypeInt16⟩ :
        WavFile) with ⟨res, pr, reqs⟩
  rcases res with r0 | e
  · rcases r0 with _ | t <;> cases h4 : env.unlinkErr <;> simp [hr, h4]
  · simp [hr]

/-- An oracle whose zh-CN submissions fail and whose other submissions
succeed. -/
def zhFailOracle : String → RecogOutcome :=
  fun lang => if lang = "zh-CN" then .unknownValue else .success "hello"

/-- A clean environment in auto-detect language mode whose zh-CN attempts
fail. -/
def envAuto : SysEnv :=
  ⟨"auto", zhFailOracle, ⟨300, true, 1/2⟩, ⟨12, 34, 56⟩, none, none, none,
    none⟩

/-- C6 as stated is false at a concrete input: in auto language mode, when
the zh-CN attempt fails, the one clip that passed the silence check is
submitted to the remote service twice (zh-CN, then en-US) — two
recognition requests arise from one buffered clip, not exactly one. -/
theorem C6_counterexample :
    ¬ maxAbs [(1 : ℚ)/50] < 1/100 ∧
    (SystemAudioRecorder._process_system_audio envAuto
      [(1 : ℚ)/50]).requests.length = 2 := by
  have hl : ¬ maxAbs [(1 : ℚ)/50] < 1/100 := by
    show ¬ max 0 |(1 : ℚ)/50| < 1/100
    rw [abs_of_nonneg (by norm_num)]
    norm_num
  refine ⟨hl, ?_⟩
  rw [sysProc_spec]
  show (SystemAudioRecorder._process_system_audio_body envAuto
    [(1 : ℚ)/50]).requests.length = 2
  rw [sys_body_requests_clean envAuto [(1 : ℚ)/50] (by simp) hl rfl rfl rfl]
  rfl

/-- C6 amended: every recognition request submits exactly the one audio
clip handed to `recognize_audio`; a clip that passes the silence check
leads to exactly one `recognize_audio` invocation, whose submissions to
the remote service are exactly one in fixed-language mode, exactly one in
auto mode when the zh-CN attempt succeeds, and exactly two (zh-CN then
en-US) in auto mode when the zh-CN attempt fails. -/
theorem C6_amended_one_clip_per_request {α : Type} (language : String)
    (oracle : String → RecogOutcome) (a : α) (env : SysEnv)
    (clip : List ℚ) :
    (∀ req ∈ (VoiceRecognizer.recognize_audio language oracle a).requests,
      req.2 = a) ∧
    (language ≠ "auto" →
      (VoiceRecognizer.recognize_audio language oracle a).requests =
        [(language, a)]) ∧
    (language = "auto" → (oracle "zh-CN").isSuccess = true →
      (VoiceRecognizer.recognize_audio language oracle a).requests =
        [("zh-CN", a)]) ∧
    (language = "auto" → (oracle "zh-CN").isSuccess = false →
      (VoiceRecognizer.recognize_audio language oracle a).requests =
        [("zh-CN", a), ("en-US", a)]) ∧
    (clip ≠ [] → ¬ maxAbs clip < 1/100 → env.tempFileErr = none →
      env.wavWriteErr = none → env.audioReadErr = none →
      (SystemAudioRecorder._process_system_audio env clip).requests =
        (VoiceRecognizer.recognize_audio env.language env.oracle
          (⟨1, 2, SystemAudioRecorder.sample_rate, clip.map astypeInt16⟩ :
            WavFile)).requests) := by
  refine ⟨?_, ?_, ?_, ?_, ?_⟩
  · by_cases hl : language = "auto"
    · rcases hzh : oracle "zh-CN" with t1 | _ | m | m <;>
        rcases hen : oracle "en-US" with t2 | _ | m2 | m2 <;>
        simp_all [VoiceRecognizer.recognize_audio, recognize_google]
    · rcases ho : oracle language with t1 | _ | m | m <;>
        simp_all [VoiceRecognizer.recognize_audio, recognize_google]
  · intro hl
    rcases ho : oracle language with t1 | _ | m | m <;>
      simp_all [VoiceRecognizer.recognize_audio, recognize_google]
  · intro hl hs
    subst hl
    rcases hzh : oracle "zh-CN" with t1 | _ | m | m <;>
      simp_all [VoiceRecognizer.recognize_audio, recognize_google,
        RecogOutcome.isSuccess]
  · intro hl hs
    subst hl
    rcases hzh : oracle "zh-CN" with t1 | _ | m | m <;>
      rcases hen : oracle "en-US" with t2 | _ | m2 | m2 <;>
      simp_all [VoiceRecognizer.recognize_audio, recognize_google,
        RecogOutcome.isSuccess]
  · intro hne hl h1 h2 h3
    rw [sysProc_spec]
    show (SystemAudioRecorder._process_system_audio_body env clip).requests =
      _
    exact sys_body_requests_clean env clip hne hl h1 h2 h3

/-- Witness for the amended C6: in the fixed-language environment `env0`,
the loud clip `[1/50]` produces exactly one service request, pairing
language zh-CN with the written WAV content. -/
theorem C6_amended_one_clip_per_request_witness :
    ("zh-CN" : String) ≠ "auto" ∧
    (VoiceRecognizer.recognize_audio "zh-CN" sampleOracle ()).requests =
      [("zh-CN", ())] ∧
    (SystemAudioRecorder._process_system_audio env0 [(1 : ℚ)/50]).requests =
      [("zh-CN",
        (⟨1, 2, SystemAudioRecorder.sample_rate,
          [(1 : ℚ)/50].map astypeInt16⟩ : WavFile))] := by
  have hl : ¬ maxAbs [(1 : ℚ)/50] < 1/100 := by
    show ¬ max 0 |(1 : ℚ)/50| < 1/100
    rw [abs_of_nonneg (by norm_num)]
    norm_num
  have hne : (("zh-CN" : String) ≠ "auto") := by decide
  have h1 := (C6_amended_one_clip_per_request "zh-CN" sampleOracle () env0
    [(1 : ℚ)/50]).2.1 hne
  have h2 := (C6_amended_one_clip_per_request "zh-CN" sampleOracle () env0
    [(1 : ℚ)/50]).2.2.2.2 (by simp) hl rfl rfl rfl
  exact ⟨hne, h1, by rw [h2]; rfl⟩

/-- C7: in mixed mode exactly one capture thread is spawned per audio
source — one microphone-capture thread and one system-audio-capture
thread, both spawned when mixed recording begins — and stopping mixed
recording clears the `is_recording` flags of both sub-recorders (and the
mixed recorder's own flag). -/
theorem C7_mixed_one_thread_per_source (st : MixedState) :
    (MixedAudioRecorder.start_recording_spawn st).2 =
      [.micThread, .sysThread] ∧
    (MixedAudioRecorder.start_recording_spawn st).2.count .micThread = 1 ∧
    (MixedAudioRecorder.start_recording_spawn st).2.count .sysThread = 1 ∧
    (MixedAudioRecorder.start_recording_spawn st).1.is_recording = true ∧
    (MixedAudioRecorder.stop_recording st).mic_is_recording = false ∧
    (MixedAudioRecorder.stop_recording st).sys_is_recording = false ∧
    (MixedAudioRecorder.stop_recording st).is_recording = false :=
  ⟨rfl, rfl, rfl, rfl, rfl, rfl, rfl⟩

/-- Closed-form behaviour of `recognize_audio` in auto language mode. -/
theorem recognize_audio_auto_spec {α : Type}
    (oracle : String → RecogOutcome) (a : α) :
    VoiceRecognizer.recognize_audio "auto" oracle a =
      match oracle "zh-CN" with
      | .success t => ⟨.ok (some ("[中文] " ++ t)), [], [("zh-CN", a)]⟩
      | _ =>
        match oracle "en-US" with
        | .success t =>
            ⟨.ok (some ("[英文] " ++ t)), [],
              [("zh-CN", a), ("en-US", a)]⟩
        | _ => ⟨.ok none, [], [("zh-CN", a), ("en-US", a)]⟩ := by
  rcases hzh : oracle "zh-CN" with t1 | _ | m | m <;>
    rcases hen : oracle "en-US" with t2 | _ | m2 | m2 <;>
    simp [VoiceRecognizer.recognize_audio, recognize_google, hzh, hen]

/-- Closed-form behaviour of `recognize_audio` in fixed-language mode. -/
theorem recognize_audio_fixed_spec {α : Type} (language : String)
    (hl : language ≠ "auto") (oracle : String → RecogOutcome) (a : α) :
    VoiceRecognizer.recognize_audio language oracle a =
      match oracle language with
      | .success t =>
          ⟨.ok (some ("[" ++ (if language = "zh-CN" then "中文" else "英文")
            ++ "] " ++ t)), [], [(language, a)]⟩
      | .unknownValue => ⟨.ok none, [], [(language, a)]⟩
      | .requestError m =>
          ⟨.ok none, ["❌ 识别服务错误: " ++ m], [(language, a)]⟩
      | .otherError m =>
          ⟨.ok none, ["❌ 识别错误: " ++ m], [(language, a)]⟩ := by
  rcases ho : oracle language with t1 | _ | m | m <;>
    simp [VoiceRecognizer.recognize_audio, recognize_google, hl, ho]

/-- C8: `recognize_audio` is total at its interface for every language
setting and every audio input: it always returns normally (never
propagates an exception), returning `None` when the service cannot
understand the audio (`UnknownValueError`), when the request fails
(`RequestError`), or on any other error — in auto mode, when both
attempts fail — and returning a language-tagged transcript string only on
success. -/
theorem C8_recognize_audio_total {α : Type} (language : String)
    (oracle : String → RecogOutcome) (audio : α) :
    (∃ r : Option String,
      (VoiceRecognizer.recognize_audio language oracle audio).result =
        .ok r) ∧
    (language ≠ "auto" →
      (oracle language = .unknownValue →
        (VoiceRecognizer.recognize_audio language oracle audio).result =
          .ok none) ∧
      (∀ m, oracle language = .requestError m →
        (VoiceRecognizer.recognize_audio language oracle audio).result =
          .ok none) ∧
      (∀ m, oracle language = .otherError m →
        (VoiceRecognizer.recognize_audio language oracle audio).result =
          .ok none) ∧
      (∀ t, oracle language = .success t →
        (VoiceRecognizer.recognize_audio language oracle audio).result =
          .ok (some ("[" ++ (if language = "zh-CN" then "中文" else "英文")
            ++ "] " ++ t)))) ∧
    (language = "auto" → (oracle "zh-CN").isSuccess = false →
      (oracle "en-US").isSuccess = false →
      (VoiceRecognizer.recognize_audio language oracle audio).result =
        .ok none) ∧
    (∀ s, (VoiceRecognizer.recognize_audio language oracle audio).result =
        .ok (some s) →
      (∃ t, s = "[中文] " ++ t) ∨ (∃ t, s = "[英文] " ++ t)) := by
  by_cases hl : language = "auto"
  · subst hl
    rw [recognize_audio_auto_spec]
    rcases hzh : oracle "zh-CN" with t1 | _ | m | m <;>
      rcases hen : oracle "en-US" with t2 | _ | m2 | m2 <;>
      refine ⟨⟨_, rfl⟩, fun h => absurd rfl h, ?_, ?_⟩ <;>
      first
      | (intro _ h1 h2
         simp_all [RecogOutcome.isSuccess])
      | (intro s hs
         simp only [PyResult.ok.injEq, Option.some.injEq] at hs
         first
         | exact Or.inl ⟨_, hs.symm⟩
         | exact Or.inr ⟨_, hs.symm⟩
         | exact absurd hs (by simp))
  · rw [recognize_audio_fixed_spec language hl]
    rcases ho : oracle language with t1 | _ | m1 | m1
    · refine ⟨⟨_, rfl⟩, fun _ => ⟨fun h => by simp at h,
        fun m h => by simp at h, fun m h => by simp at h, fun t h => ?_⟩,
        fun h => absurd h hl, ?_⟩
      · injection h with h
        subst h
        rfl
      · intro s hs
        simp only [PyResult.ok.injEq, Option.some.injEq] at hs
        subst hs
        by_cases hzh : language = "zh-CN"
        · refine Or.inl ⟨t1, ?_⟩
          rw [if_pos hzh]
          rfl
        · refine Or.inr ⟨t1, ?_⟩
          rw [if_neg hzh]
          rfl
    · exact ⟨⟨_, rfl⟩, fun _ => ⟨fun _ => rfl, fun m h => by simp at h,
        fun m h => by simp at h, fun t h => by simp at h⟩,
        fun h => absurd h hl, fun s hs => absurd hs (by simp)⟩
    · exact ⟨⟨_, rfl⟩, fun _ => ⟨fun h => by simp at h, fun m _ => rfl,
        fun m h => by simp at h, fun t h => by simp at h⟩,
        fun h => absurd h hl, fun s hs => absurd hs (by simp)⟩
    · exact ⟨⟨_, rfl⟩, fun _ => ⟨fun h => by simp at h,
        fun m h => by simp at h, fun m _ => rfl, fun t h => by simp at h⟩,
        fun h => absurd h hl, fun s hs => absurd hs (by simp)⟩

/-- Witness for C8: with a concrete failing oracle in fixed zh-CN mode,
`recognize_audio` returns normally with `None`. -/
theorem C8_recognize_audio_total_witness :
    ("zh-CN" : String) ≠ "auto" ∧
    failingOracle "zh-CN" = .requestError "connection failed" ∧
    (VoiceRecognizer.recognize_audio "zh-CN" failingOracle ()).result =
      .ok none :=
  ⟨by decide, rfl,
    ((C8_recognize_audio_total "zh-CN" failingOracle ()).2.1
      (by decide)).2.1 "connection failed" rfl⟩

/-- A Chinese-tagged transcript is never equal to an English-tagged one:
the two tags differ in their second character. -/
theorem cn_en_tag_ne (t u : String) : "[中文] " ++ t ≠ "[英文] " ++ u := by
  intro h
  have h2 : ("[中文] " ++ t).data = ("[英文] " ++ u).data := by rw [h]
  rw [String.data_append, String.data_append] at h2
  have h3 : ('[' :: '中' :: '文' :: ']' :: ' ' :: t.data) =
      ('[' :: '英' :: '文' :: ']' :: ' ' :: u.data) := h2
  injection h3 with _ h4
  injection h4 with h5 _
  exact absurd h5 (by decide)

/-- C9: in auto mode recognition is attempted zh-CN first; the result is
`[中文]`-tagged text when zh-CN succeeds (with only the zh-CN submission
made), `[英文]`-tagged text when zh-CN fails in any way and en-US
succeeds (with submissions zh-CN then en-US, in that order), and `None`
when both fail; an English-tagged result is never returned when Chinese
recognition succeeds. -/
theorem C9_auto_chinese_first {α : Type} (oracle : String → RecogOutcome)
    (audio : α) :
    (∀ t, oracle "zh-CN" = .success t →
      (VoiceRecognizer.recognize_audio "auto" oracle audio).result =
        .ok (some ("[中文] " ++ t)) ∧
      (VoiceRecognizer.recognize_audio "auto" oracle audio).requests.map
        Prod.fst = ["zh-CN"]) ∧
    ((oracle "zh-CN").isSuccess = false → ∀ t,
      oracle "en-US" = .success t →
      (VoiceRecognizer.recognize_audio "auto" oracle audio).result =
        .ok (some ("[英文] " ++ t)) ∧
      (VoiceRecognizer.recognize_audio "auto" oracle audio).requests.map
        Prod.fst = ["zh-CN", "en-US"]) ∧
    ((oracle "zh-CN").isSuccess = false →
      (oracle "en-US").isSuccess = false →
      (VoiceRecognizer.recognize_audio "auto" oracle audio).result =
        .ok none) ∧
    (∀ t u, oracle "zh-CN" = .success t →
      (VoiceRecognizer.recognize_audio "auto" oracle audio).result ≠
        .ok (some ("[英文] " ++ u))) := by
  rw [recognize_audio_auto_spec]
  refine ⟨?_, ?_, ?_, ?_⟩
  · intro t ht
    rw [ht]
    exact ⟨rfl, rfl⟩
  · intro hzh t ht
    rcases h1 : oracle "zh-CN" with t1 | _ | m1 | m1 <;>
      simp_all [RecogOutcome.isSuccess]
  · intro hzh hen
    rcases h1 : oracle "zh-CN" with t1 | _ | m1 | m1 <;>
      rcases h2 : oracle "en-US" with t2 | _ | m2 | m2 <;>
      simp_all [RecogOutcome.isSuccess]
  · intro t u ht
    rw [ht]
    intro h
    simp only [PyResult.ok.injEq, Option.some.injEq] at h
    exact absurd h (cn_en_tag_ne t u)

/-- Witness for C9: with an all-success oracle the auto-mode result is the
Chinese-tagged transcript after a single zh-CN submission. -/
theorem C9_auto_chinese_first_witness :
    sampleOracle "zh-CN" = .success "hello" ∧
    (VoiceRecognizer.recognize_audio "auto" sampleOracle ()).result =
      .ok (some "[中文] hello") ∧
    (VoiceRecognizer.recognize_audio "auto" sampleOracle ()).requests.map
      Prod.fst = ["zh-CN"] := by
  have h := (C9_auto_chinese_first sampleOracle ()).1 "hello" rfl
  exact ⟨rfl, h.1, h.2⟩

/-- Every WAV file ever written by `_process_system_audio` is the mono,
16-bit, 16000 Hz encoding of the processed clip. -/
theorem sys_wav_shape (env : SysEnv) (clip : List ℚ) :
    ∀ w ∈ (SystemAudioRecorder._process_system_audio env clip).wavsWritten,
      w = ⟨1, 2, SystemAudioRecorder.sample_rate, clip.map astypeInt16⟩ := by
  intro w hw
  rw [sysProc_spec] at hw
  have hw2 : w ∈
      (SystemAudioRecorder._process_system_audio_body env clip).wavsWritten :=
    hw
  unfold SystemAudioRecorder._process_system_audio_body at hw2
  repeat' split at hw2
  all_goals try simp_all
  all_goals
    rcases hres : (VoiceRecognizer.recognize_audio env.language env.oracle
        (⟨1, 2, SystemAudioRecorder.sample_rate, clip.map astypeInt16⟩ :
          WavFile)).result with r0 | e0 <;>
      rw [hres] at hw2 <;> simp_all

/-- Every WAV file ever written by `_process_sys_audio` is the mono,
16-bit, 16000 Hz encoding of the processed clip. -/
theorem mixed_wav_shape (env : SysEnv) (clip : List ℚ) :
    ∀ w ∈ (MixedAudioRecorder._process_sys_audio env clip).wavsWritten,
      w = ⟨1, 2, 16000, clip.map astypeInt16⟩ := by
  intro w hw
  rw [mixedProc_spec] at hw
  have hw2 : w ∈
      (MixedAudioRecorder._process_sys_audio_body env clip).wavsWritten :=
    hw
  unfold MixedAudioRecorder._process_sys_audio_body at hw2
  repeat' split at hw2
  all_goals try simp_all
  all_goals
    rcases hres : (VoiceRecognizer.recognize_audio env.language env.oracle
        (⟨1, 2, 16000, clip.map astypeInt16⟩ : WavFile)).result with
        r0 | e0 <;>
      rw [hres] at hw2 <;> simp_all

/-- `astypeInt16` is the truncation toward zero of `x * 32767`: it never
exceeds the product in magnitude, differs from it by less than one, and
maps `[-1, 1]` into the 16-bit range `[-32767, 32767]`. -/
theorem astypeInt16_trunc (x : ℚ) :
    |(astypeInt16 x : ℚ)| ≤ |x * 32767| ∧
    |x * 32767 - (astypeInt16 x : ℚ)| < 1 ∧
    (|x| ≤ 1 → -32767 ≤ astypeInt16 x ∧ astypeInt16 x ≤ 32767) := by
  have hv : |x| ≤ 1 → |x * 32767| ≤ 32767 := by
    intro hx
    rw [abs_mul, abs_of_nonneg (by norm_num : (0 : ℚ) ≤ 32767)]
    nlinarith [abs_nonneg x]
  unfold astypeInt16
  by_cases h : 0 ≤ x * 32767
  · rw [if_pos h]
    have h1 : (⌊x * 32767⌋ : ℚ) ≤ x * 32767 := Int.floor_le _
    have h2 : x * 32767 < ⌊x * 32767⌋ + 1 := Int.lt_floor_add_one _
    have h3 : (0 : ℚ) ≤ (⌊x * 32767⌋ : ℚ) := by
      exact_mod_cast Int.floor_nonneg.mpr h
    refine ⟨?_, ?_, ?_⟩
    · rw [abs_of_nonneg h3, abs_of_nonneg h]
      exact h1
    · rw [abs_of_nonneg (by linarith)]
      linarith
    · intro hx
      have h4 := hv hx
      rw [abs_of_nonneg h] at h4
      constructor
      · have h5 : (-32767 : ℚ) ≤ (⌊x * 32767⌋ : ℚ) := by linarith
        exact_mod_cast h5
      · have h5 : (⌊x * 32767⌋ : ℚ) ≤ 32767 := by linarith
        exact_mod_cast h5
  · rw [if_neg h]
    have hneg : x * 32767 < 0 := lt_of_not_ge h
    have h1 : x * 32767 ≤ (⌈x * 32767⌉ : ℚ) := Int.le_ceil _
    have h2 : (⌈x * 32767⌉ : ℚ) < x * 32767 + 1 := Int.ceil_lt_add_one _
    have h3 : (⌈x * 32767⌉ : ℚ) ≤ 0 := by
      have h6 : ⌈x * 32767⌉ ≤ (0 : ℤ) :=
        Int.ceil_le.mpr (by exact_mod_cast hneg.le)
      exact_mod_cast h6
    refine ⟨?_, ?_, ?_⟩
    · rw [abs_of_nonpos h3, abs_of_nonpos (le_of_lt hneg)]
      linarith
    · rw [abs_of_nonpos (by linarith)]
      linarith
    · intro hx
      have h4 := hv hx
      rw [abs_of_nonpos (le_of_lt hneg)] at h4
      constructor
      · have h5 : (-32767 : ℚ) ≤ (⌈x * 32767⌉ : ℚ) := by linarith
        exact_mod_cast h5
      · have h5 : (⌈x * 32767⌉ : ℚ) ≤ 32767 := by linarith
        exact_mod_cast h5

/-- C10: every temporary WAV file written for a system-audio clip (by
either recorder) encodes the clip as mono (1 channel), 16-bit samples
(sample width 2), at 16000 Hz, with each sample `x` converted to the
truncation toward zero of `x * 32767` — a value within `[-32767, 32767]`
whenever `|x| ≤ 1`. -/
theorem C10_wav_encoding (env : SysEnv) (clip : List ℚ) :
    (∀ w ∈ (SystemAudioRecorder._process_system_audio env clip).wavsWritten,
      w = ⟨1, 2, 16000, clip.map astypeInt16⟩) ∧
    (∀ w ∈ (MixedAudioRecorder._process_sys_audio env clip).wavsWritten,
      w = ⟨1, 2, 16000, clip.map astypeInt16⟩) ∧
    (∀ x : ℚ, |(astypeInt16 x : ℚ)| ≤ |x * 32767| ∧
      |x * 32767 - (astypeInt16 x : ℚ)| < 1 ∧
      (|x| ≤ 1 → -32767 ≤ astypeInt16 x ∧ astypeInt16 x ≤ 32767)) :=
  ⟨sys_wav_shape env clip, mixed_wav_shape env clip,
    fun x => astypeInt16_trunc x⟩

/-- Witness for C10: processing the loud clip `[1/50]` in `env0` writes
exactly one WAV file — mono, 16-bit, 16000 Hz, with the single frame
`⌊32767/50⌋ = 655`. -/
theorem C10_wav_encoding_witness :
    (⟨1, 2, 16000, [(655 : ℤ)]⟩ : WavFile) ∈
      (SystemAudioRecorder._process_system_audio env0
        [(1 : ℚ)/50]).wavsWritten ∧
    (⟨1, 2, 16000, [(655 : ℤ)]⟩ : WavFile) =
      ⟨1, 2, 16000, [(1 : ℚ)/50].map astypeInt16⟩ ∧
    |(1 : ℚ)/50| ≤ 1 ∧ -32767 ≤ astypeInt16 ((1 : ℚ)/50) ∧
      astypeInt16 ((1 : ℚ)/50) ≤ 32767 := by
  have hl : ¬ maxAbs [(1 : ℚ)/50] < 1/100 := by
    show ¬ max 0 |(1 : ℚ)/50| < 1/100
    rw [abs_of_nonneg (by norm_num)]
    norm_num
  have hx : |(1 : ℚ)/50| ≤ 1 := by
    rw [abs_of_nonneg (by norm_num)]
    norm_num
  have hval : astypeInt16 ((50 : ℚ)⁻¹) = 655 := by
    unfold astypeInt16
    rw [if_pos (by norm_num)]
    rw [Int.floor_eq_iff]
    constructor <;> norm_num
  have hmem : (⟨1, 2, 16000, [(655 : ℤ)]⟩ : WavFile) ∈
      (SystemAudioRecorder._process_system_audio env0
        [(1 : ℚ)/50]).wavsWritten := by
    rw [sysProc_spec]
    have hgoal : (⟨1, 2, 16000, [(655 : ℤ)]⟩ : WavFile) ∈
        (SystemAudioRecorder._process_system_audio_body env0
          [(1 : ℚ)/50]).wavsWritten := by
      unfold SystemAudioRecorder._process_system_audio_body
      rw [if_neg (by simp : ¬ ([(1 : ℚ)/50] = [])), if_neg hl]
      simp [env0, sampleOracle, VoiceRecognizer.recognize_audio,
        recognize_google, SystemAudioRecorder.sample_rate, hval]
    exact hgoal
  have hrange := ((C10_wav_encoding env0 [(1 : ℚ)/50]).2.2
    ((1 : ℚ)/50)).2.2 hx
  exact ⟨hmem, (C10_wav_encoding env0 [(1 : ℚ)/50]).1 _ hmem, hx,
    hrange.1, hrange.2⟩
